import Mathlib

/-!
# Formal model of the data-file pattern resolution engine

This file embeds the pattern-resolution and origin-fingerprinting engine of
`src/datasets/data_files.py` as executable Lean definitions and proves the
specified properties about them.

Modelling conventions:
* A local filesystem tree is a list of slash-separated relative file paths
  (all entries are regular files; directories are implicit).
* Python exceptions are modelled with `Except String`; the only exception
  class raised by the resolvers is FileNotFoundError, so a single error
  channel suffices.
* Machine-independent parts of the Python standard library used by the code
  (glob matching, `pathlib` suffix handling, path ordering) are implemented
  directly; external collaborators absent from `src/` (URL classification,
  URL construction, template reversal) are modelled from the spec and marked
  as such in their doc comments.
* Recursions that are not structural are written with an explicit fuel
  argument so that every definition evaluates by `decide`/`rfl`.
-/

deriving instance DecidableEq for Except

namespace DataFiles

/-! ## Character-level string utilities (structural, evaluation-friendly) -/

/-- Split a character list at every occurrence of `sep` (keeping empty chunks). -/
def splitCharAux (sep : Char) : List Char → List Char → List (List Char)
  | [], acc => [acc.reverse]
  | c :: cs, acc =>
    if c = sep then acc.reverse :: splitCharAux sep cs []
    else splitCharAux sep cs (c :: acc)

def splitChar (sep : Char) (cs : List Char) : List (List Char) :=
  splitCharAux sep cs []

/-- The components of a posix path, with a leading `"/"` part for absolute
paths, mirroring Python `PurePath.parts` (empty components collapse). -/
def partsOf (p : String) : List String :=
  let comps := ((splitChar '/' p.data).filter (fun c => c ≠ [])).map String.mk
  if p.data.head? = some '/' then "/" :: comps else comps

/-- The last path component, mirroring Python `PurePath.name`. -/
def fileName (p : String) : String :=
  (partsOf p).getLastD ""

def strStartsWith (pre s : String) : Bool :=
  pre.data.isPrefixOf s.data

def dropChars (n : Nat) (s : String) : String :=
  String.mk (s.data.drop n)

/-- Python `pathlib` `suffixes`: the dot-suffixes of the file name, e.g.
`"a.csv.gz"` has suffixes `[".csv", ".gz"]`.  A name ending in a dot has no
suffixes, and leading dots are stripped first. -/
def pySuffixes (name : String) : List String :=
  if name.data.getLastD ' ' = '.' then []
  else
    let core := name.data.dropWhile (fun c => c = '.')
    ((splitChar '.' core).drop 1).map (fun cs => String.mk ('.' :: cs))

/-! ## fnmatch-style glob matching (models the external glob collaborator) -/

/-- Parse the items of a `[...]` character class (after the opening bracket):
single characters and `a-b` ranges.  Returns the items and the remainder of
the pattern after the closing bracket, or `none` if the class is unclosed. -/
def parseClassItems : List Char → Option (List (Char × Char) × List Char)
  | [] => none
  | ']' :: rest => some ([], rest)
  | a :: '-' :: b :: rest =>
    if b = ']' then some ([(a, a), ('-', '-')], rest)
    else
      match parseClassItems rest with
      | some (items, r) => some ((a, b) :: items, r)
      | none => none
  | a :: rest =>
    match parseClassItems rest with
    | some (items, r) => some ((a, a) :: items, r)
    | none => none

def matchesClass (items : List (Char × Char)) (c : Char) : Bool :=
  items.any (fun ab => decide (ab.1 ≤ c) && decide (c ≤ ab.2))

/-- Single-component fnmatch: `*` matches any run of characters, `?` any one
character, `[...]` a character class.  The fuel strictly exceeds the sum of
the two lengths, which every recursive call strictly decreases, so the fuel
never runs out. -/
def fnmatchAux : Nat → List Char → List Char → Bool
  | 0, _, _ => false
  | _ + 1, [], [] => true
  | _ + 1, [], _ :: _ => false
  | fuel + 1, '*' :: ps, cs =>
    fnmatchAux fuel ps cs ||
      (match cs with
       | [] => false
       | _ :: cs2 => fnmatchAux fuel ('*' :: ps) cs2)
  | _ + 1, _ :: _, [] => false
  | fuel + 1, '?' :: ps, _ :: cs => fnmatchAux fuel ps cs
  | fuel + 1, '[' :: ps, c :: cs =>
    (match parseClassItems ps with
     | some (items, rest) => matchesClass items c && fnmatchAux fuel rest cs
     | none => ('[' == c) && fnmatchAux fuel ps cs)
  | fuel + 1, p :: ps, c :: cs => (p == c) && fnmatchAux fuel ps cs

def fnmatchList (ps cs : List Char) : Bool :=
  fnmatchAux (ps.length + cs.length + 1) ps cs

/-- Component-wise glob matching where a `**` component matches any number of
components (pathlib recursive-glob semantics). -/
def globCompsAux : Nat → List String → List String → Bool
  | 0, _, _ => false
  | _ + 1, [], [] => true
  | _ + 1, [], _ :: _ => false
  | fuel + 1, p :: ps, cs =>
    if p = "**" then
      globCompsAux fuel ps cs ||
        (match cs with
         | [] => false
         | _ :: cs2 => globCompsAux fuel (p :: ps) cs2)
    else
      match cs with
      | [] => false
      | c :: cs2 => fnmatchList p.data c.data && globCompsAux fuel ps cs2

def globComps (ps cs : List String) : Bool :=
  globCompsAux (ps.length + cs.length + 1) ps cs

/-- `Path(base).rglob(pattern)` membership test: equivalent to matching
`"**/" ++ pattern` against the path relative to the base directory. -/
def rglobMatch (pattern relPath : String) : Bool :=
  globComps ("**" :: partsOf pattern) (partsOf relPath)

def zipAllFnmatch (pp cp : List String) : Bool :=
  (pp.zip cp).all (fun pc => fnmatchList pc.1.data pc.2.data)

/-- `glob.glob(pattern)` membership test for absolute patterns (the default
non-recursive mode, where `**` behaves like `*`): anchored component-wise
match. -/
def anchoredGlobMatch (pattern path : String) : Bool :=
  let pp := partsOf pattern
  let cp := partsOf path
  (pp.length == cp.length) && zipAllFnmatch pp cp

/-- Python `PurePath.match`: a relative pattern is matched from the right
against the trailing components of the path; an absolute pattern must match
the whole path.  A `**` component matches exactly one component, as in
`fnmatch`. -/
def purePathMatch (pattern path : String) : Bool :=
  let pp := partsOf pattern
  let cp := partsOf path
  if strStartsWith "/" pattern then
    (pp.length == cp.length) && zipAllFnmatch pp cp
  else
    decide (pp.length ≤ cp.length) && zipAllFnmatch pp (cp.drop (cp.length - pp.length))

/-! ## Constants from `data_files.py` -/

/-- Modelled from the spec: the canonical default split name is `"train"`
(`datasets/splits.py` is not under `src/`; `DEFAULT_SPLIT = str(Split.TRAIN)`). -/
def DEFAULT_SPLIT : String := "train"

def SPLIT_PATTERN_SHARDED : String :=
  "data/{split}-[0-9][0-9][0-9][0-9][0-9]-of-[0-9][0-9][0-9][0-9][0-9].*"

def DEFAULT_PATTERNS_SPLIT_IN_FILENAME : List (String × List String) :=
  [("train", ["*train*"]),
   ("test", ["*test*", "*eval*"]),
   ("validation", ["*dev*", "*valid*"])]

def DEFAULT_PATTERNS_SPLIT_IN_DIR_NAME : List (String × List String) :=
  [("train", ["*train*/*", "*train*/**/*"]),
   ("test", ["*test*/*", "*test*/**/*", "*eval*/*", "*eval*/**/*"]),
   ("validation", ["*dev*/*", "*dev*/**/*", "*valid*/*", "*valid*/**/*"])]

def DEFAULT_PATTERNS_ALL : List (String × List String) :=
  [("train", ["*"])]

def ALL_DEFAULT_PATTERNS : List (List (String × List String)) :=
  [DEFAULT_PATTERNS_SPLIT_IN_FILENAME, DEFAULT_PATTERNS_SPLIT_IN_DIR_NAME, DEFAULT_PATTERNS_ALL]

def WILDCARD_CHARACTERS : List Char := ['*', '[', ']']

def FILES_TO_IGNORE : List String :=
  ["README.md", "config.json", "dataset_infos.json", "dummy_data.zip", "dataset_dict.json"]

def contains_wildcards (pattern : String) : Bool :=
  WILDCARD_CHARACTERS.any (fun w => pattern.data.contains w)

/-- Substring replacement (models Python `str.replace` / the single use of
`str.format` on the sharded template).  Fuel exceeds the string length and
each call consumes at least one character when the needle is nonempty. -/
def replaceSubAux (pat repl : List Char) : Nat → List Char → List Char
  | 0, cs => cs
  | _ + 1, [] => []
  | fuel + 1, c :: cs =>
    if pat.isPrefixOf (c :: cs) then
      repl ++ replaceSubAux pat repl fuel ((c :: cs).drop pat.length)
    else
      c :: replaceSubAux pat repl fuel cs

def strReplace (s pat repl : String) : String :=
  if pat.data.isEmpty then s
  else String.mk (replaceSubAux pat.data repl.data (s.data.length + 1) s.data)

/-- The sharded split template with the split name wildcarded
(`split_pattern.replace("{split}", "*")`). -/
def shardedWildcardPattern : String :=
  strReplace SPLIT_PATTERN_SHARDED "{split}" "*"

/-- The sharded split template instantiated at a split name
(`split_pattern.format(split=split)`). -/
def shardedPatternFor (split : String) : String :=
  strReplace SPLIT_PATTERN_SHARDED "{split}" split

/-- Modelled from the spec: classification of a pattern as a remote URL is a
pure function of the string (`file_utils.is_remote_url` is not under `src/`;
it tests the URL scheme). -/
def is_remote_url (s : String) : Bool :=
  ["http://", "https://", "s3://", "gs://", "hdfs://", "ftp://"].any
    (fun sch => strStartsWith sch s)

/-- Modelled from the spec: a pattern is relative when it is neither a remote
URL nor an absolute path (`file_utils.is_relative_path` is not under `src/`). -/
def is_relative_path (s : String) : Bool :=
  !is_remote_url s && !strStartsWith "/" s

/-! ## Path ordering (Python `Path`/`PurePath` comparison is by parts) -/

/-- Lexicographic strict comparison of character lists by code point
(Python string comparison). -/
def charListLt : List Char → List Char → Bool
  | [], [] => false
  | [], _ :: _ => true
  | _ :: _, [] => false
  | a :: as, b :: bs =>
    decide (a.val.toNat < b.val.toNat) || (a == b && charListLt as bs)

def strLtB (a b : String) : Bool :=
  charListLt a.data b.data

def partsLe : List String → List String → Bool
  | [], _ => true
  | _ :: _, [] => false
  | x :: xs, y :: ys => if x = y then partsLe xs ys else strLtB x y

def pathLe (a b : String) : Prop :=
  partsLe (partsOf a) (partsOf b) = true

instance : DecidableRel pathLe := fun a b =>
  inferInstanceAs (Decidable (partsLe (partsOf a) (partsOf b) = true))

/-- `sorted(...)` on a list of paths. -/
def sortPaths (l : List String) : List String :=
  l.insertionSort pathLe

/-! ## Local single-pattern resolution (`_resolve_single_pattern_locally`)

The filesystem is a list of slash-separated file paths relative to the base
directory; every entry is a regular file (so the `filepath.is_file()` test of
the source always passes and directories never appear as matches). -/

/-- `filepath.resolve()`: paths produced by the relative glob branch are made
absolute by prefixing the base directory (assumed absolute and normalized). -/
def absolutize (base f : String) : String :=
  if strStartsWith "/" f then f else base ++ "/" ++ f

/-- The raw glob expansion: `Path(base_path).rglob(pattern)` for relative
patterns, `glob.glob(pattern)` for the rest, already resolved to absolute
paths. -/
def localGlobIter (fs : List String) (base pattern : String) : List String :=
  if is_relative_path pattern then
    (fs.filter (fun f => rglobMatch pattern f)).map (absolutize base)
  else
    (fs.map (absolutize base)).filter (fun f => anchoredGlobMatch pattern f)

/-- The ignore-list and dotfile filters applied to the glob matches. -/
def localMatchedPaths (fs : List String) (base pattern : String) : List String :=
  (localGlobIter fs base pattern).filter
    (fun f => !FILES_TO_IGNORE.contains (fileName f) && !strStartsWith "." (fileName f))

/-- The extension filter of the source: a file is kept when ANY of its
dot-suffixes, with the leading dot stripped, is in the allow-list. -/
def anySuffixAllowed (allowed : List String) (name : String) : Bool :=
  (pySuffixes name).any (fun suf => allowed.contains (dropChars 1 suf))

/-- The matches remaining after ignore-list, dotfile and extension filtering. -/
def localOut (fs : List String) (base pattern : String)
    (allowed : Option (List String)) : List String :=
  match allowed with
  | some exts =>
    (localMatchedPaths fs base pattern).filter (fun f => anySuffixAllowed exts (fileName f))
  | none => localMatchedPaths fs base pattern

def joinWith (sep : String) : List String → String
  | [] => ""
  | [s] => s
  | s :: rest => s ++ sep ++ joinWith sep rest

/-- Python `repr` of a list of simple strings, as interpolated into the error
messages. -/
def pyStrListRepr (l : List String) : String :=
  "[" ++ joinWith ", " (l.map (fun s => "'" ++ s ++ "'")) ++ "]"

def extMsgSuffix : Option (List String) → String
  | none => ""
  | some exts => " with any supported extension " ++ pyStrListRepr exts

def localNotFoundMsg (base pattern : String) (allowed : Option (List String)) : String :=
  "Unable to find '" ++ pattern ++ "' at " ++ base ++ extMsgSuffix allowed

def _resolve_single_pattern_locally (fs : List String) (base pattern : String)
    (allowed : Option (List String)) : Except String (List String) :=
  let out := localOut fs base pattern allowed
  if out.isEmpty && !contains_wildcards pattern then
    .error (localNotFoundMsg base pattern allowed)
  else
    .ok (sortPaths out)

/-! ## Remote single-pattern resolution
(`_resolve_single_pattern_in_dataset_repository`) -/

/-- The repository listing collaborator: file records at one revision. -/
structure DatasetInfo where
  id : String
  sha : String
  siblings : List String
deriving DecidableEq

/-- Each relative path is prefixed with a leading separator before matching so
that patterns like `**/*` also match files at the root. -/
def repoAllDataFiles (info : DatasetInfo) : List String :=
  info.siblings.map (fun f => "/" ++ f)

def repoMatchedPaths (info : DatasetInfo) (pattern : String) : List String :=
  ((repoAllDataFiles info).filter
    (fun fp => !FILES_TO_IGNORE.contains (fileName fp) && !strStartsWith "." (fileName fp)
      && purePathMatch pattern fp)).map (fun fp => dropChars 1 fp)

def repoOut (info : DatasetInfo) (pattern : String)
    (allowed : Option (List String)) : List String :=
  match allowed with
  | some exts =>
    (repoMatchedPaths info pattern).filter (fun f => anySuffixAllowed exts (fileName f))
  | none => repoMatchedPaths info pattern

def repoNotFoundMsg (info : DatasetInfo) (pattern : String)
    (allowed : Option (List String)) : String :=
  "Unable to find " ++ pattern ++ " in dataset repository " ++ info.id ++ extMsgSuffix allowed

def _resolve_single_pattern_in_dataset_repository (info : DatasetInfo) (pattern : String)
    (allowed : Option (List String)) : Except String (List String) :=
  let out := repoOut info pattern allowed
  if out.isEmpty && !contains_wildcards pattern then
    .error (repoNotFoundMsg info pattern allowed)
  else
    .ok (sortPaths out)

/-! ## Multi-pattern resolution -/

/-- A resolved data file: a local absolute path or a remote URL (the source
tags URLs with the `Url` subtype of `str`). -/
inductive ResolvedLoc where
  | path (p : String)
  | url (u : String)
deriving DecidableEq

/-- Modelled from the spec: the URL construction collaborator
`build_url(repo_id, relative_path, revision) -> absolute URL` is a pure
function (`file_utils.hf_hub_url` is not under `src/`); the URL shape follows
the docstring example of `resolve_patterns_in_dataset_repository`. -/
def hf_hub_url (repoId path revision : String) : String :=
  "https://huggingface.co/datasets/" ++ repoId ++ "/resolve/" ++ revision ++ "/" ++ path

/-- The per-pattern accumulation loop shared by both multi-pattern resolvers:
each pattern contributes its resolved files in order, and the first error
aborts the whole resolution (fail-fast). -/
def resolvePatternsAux (contrib : String → Except String (List α)) :
    List String → Except String (List α)
  | [] => .ok []
  | p :: ps =>
    match contrib p with
    | .error e => .error e
    | .ok head =>
      match resolvePatternsAux contrib ps with
      | .error e => .error e
      | .ok rest => .ok (head ++ rest)

/-- One pattern's contribution in `resolve_patterns_locally_or_by_urls`:
a remote URL is returned verbatim (tagged `Url`), anything else goes through
the local single-pattern resolver. -/
def localPatternContribution (fs : List String) (base : String)
    (allowed : Option (List String)) (p : String) : Except String (List ResolvedLoc) :=
  if is_remote_url p then .ok [.url p]
  else
    match _resolve_single_pattern_locally fs base p allowed with
    | .error e => .error e
    | .ok l => .ok (l.map .path)

def noLocalFilesMsg (base : String) (patterns : List String)
    (allowed : Option (List String)) : String :=
  "Unable to resolve any data file that matches '" ++ pyStrListRepr patterns ++ "' at "
    ++ base ++ extMsgSuffix allowed

def resolve_patterns_locally_or_by_urls (fs : List String) (base : String)
    (patterns : List String) (allowed : Option (List String)) :
    Except String (List ResolvedLoc) :=
  match resolvePatternsAux (localPatternContribution fs base allowed) patterns with
  | .error e => .error e
  | .ok l => if l.isEmpty then .error (noLocalFilesMsg base patterns allowed) else .ok l

/-- One pattern's contribution in `resolve_patterns_in_dataset_repository`:
the matched relative paths mapped to revision-pinned download URLs. -/
def repoPatternContribution (info : DatasetInfo) (allowed : Option (List String))
    (p : String) : Except String (List String) :=
  match _resolve_single_pattern_in_dataset_repository info p allowed with
  | .error e => .error e
  | .ok l => .ok (l.map (fun rel => hf_hub_url info.id rel info.sha))

def noRepoFilesMsg (info : DatasetInfo) (patterns : List String)
    (allowed : Option (List String)) : String :=
  "Unable to resolve any data file that matches " ++ pyStrListRepr patterns
    ++ " in dataset repository " ++ info.id ++ extMsgSuffix allowed

def resolve_patterns_in_dataset_repository (info : DatasetInfo) (patterns : List String)
    (allowed : Option (List String)) : Except String (List String) :=
  match resolvePatternsAux (repoPatternContribution info allowed) patterns with
  | .error e => .error e
  | .ok l => if l.isEmpty then .error (noRepoFilesMsg info patterns allowed) else .ok l

/-! ## Origin metadata and the resolved-file aggregates -/

/-- One file's origin fingerprint: the mtime of a local file or the ETag of a
remote URL.  The filesystem mtime lookup and the network ETag request are
external collaborators, passed as functions (a failing request would abort
the whole construction; fingerprints of successful constructions are modelled
by total functions). -/
def _get_single_origin_metadata_locally_or_by_urls (mtime etag : String → String) :
    ResolvedLoc → List String
  | .url u => [etag u]
  | .path p => [mtime p]

/-- `thread_map` is an order-preserving parallel map (spec section 5):
fingerprints are index-aligned with the input files. -/
def _get_origin_metadata_locally_or_by_urls (mtime etag : String → String)
    (dataFiles : List ResolvedLoc) : List (List String) :=
  dataFiles.map (_get_single_origin_metadata_locally_or_by_urls mtime etag)

/-- A list of resolved data files together with its `origin_metadata`
attribute. -/
structure DataFilesList where
  files : List ResolvedLoc
  origin_metadata : List (List String)
deriving DecidableEq

/-- `DataFilesList.from_hf_repo`: note the source builds one `(id, sha)` tuple
per PATTERN (`for _ in patterns`), not per resolved file. -/
def DataFilesList.from_hf_repo (patterns : List String) (info : DatasetInfo)
    (allowed : Option (List String)) : Except String DataFilesList :=
  match resolve_patterns_in_dataset_repository info patterns allowed with
  | .error e => .error e
  | .ok urls => .ok ⟨urls.map .url, patterns.map (fun _ => [info.id, info.sha])⟩

def DataFilesList.from_local_or_remote (fs : List String) (patterns : List String)
    (base : String) (allowed : Option (List String)) (mtime etag : String → String) :
    Except String DataFilesList :=
  match resolve_patterns_locally_or_by_urls fs base patterns allowed with
  | .error e => .error e
  | .ok dataFiles =>
    .ok ⟨dataFiles, _get_origin_metadata_locally_or_by_urls mtime etag dataFiles⟩

/-! ## `DataFilesDict.__reduce__` canonicalization -/

def strLeB (a b : String) : Bool :=
  !strLtB b a

/-- Key order used by `sorted(self.items())`.  Python compares the
`(key, value)` tuples lexicographically, but the keys of a dict are unique,
so the comparison never reaches the values and sorting by key alone is
faithful. -/
def keyLe (a b : String × DataFilesList) : Prop :=
  strLeB a.1 b.1 = true

instance : DecidableRel keyLe := fun a b =>
  inferInstanceAs (Decidable (strLeB a.1 b.1 = true))

/-- The canonical constructor argument produced by
`DataFilesDict.__reduce__`: `dict(sorted(self.items()))`.  A `DataFilesDict`
is modelled as its insertion-ordered association list. -/
def DataFilesDict.reduceArg (d : List (String × DataFilesList)) :
    List (String × DataFilesList) :=
  d.insertionSort keyLe

/-! ## `sanitize_patterns` -/

/-- A value of the user's mapping: either a bare pattern or a list of
patterns (a `DataFilesList` value is a `list` subclass, covered by `many`). -/
inductive PatternsValue where
  | single (s : String)
  | many (l : List String)

/-- The user's `data_files` argument: a bare pattern, a list of patterns, or
a mapping.  Mapping keys are modelled as already stringified (`str(key)`);
the source also accepts arbitrary iterables via a final `list(...)` branch,
covered by the `list` shape. -/
inductive PatternsInput where
  | str (s : String)
  | list (l : List String)
  | dict (d : List (String × PatternsValue))

def valueAsList : PatternsValue → List String
  | .single s => [s]
  | .many l => l

def sanitize_patterns : PatternsInput → List (String × List String)
  | .dict d => d.map (fun kv => (kv.1, valueAsList kv.2))
  | .str s => [(DEFAULT_SPLIT, [s])]
  | .list l => [(DEFAULT_SPLIT, l)]

/-! ## Split inference (`_get_data_files_patterns`) -/

/-- Does the tail of a matched path continue as `-DDDDD-of-DDDDD` followed by
anything (the regex obtained from the sharded template)? -/
def matchShardTail : List Char → Bool
  | '-' :: d1 :: d2 :: d3 :: d4 :: d5 :: '-' :: 'o' :: 'f' :: '-' :: e1 :: e2 :: e3 :: e4 :: e5 :: _ =>
    [d1, d2, d3, d4, d5, e1, e2, e3, e4, e5].all Char.isDigit
  | _ => false

/-- Greedy capture of the `{split}` component: the longest nonempty prefix
whose remainder matches the shard-suffix regex. -/
def greedySplitAux : List Char → List Char → Option (List Char)
  | _, [] => none
  | pre, c :: rest =>
    match greedySplitAux (pre ++ [c]) rest with
    | some r => some r
    | none => if !pre.isEmpty && matchShardTail (c :: rest) then some pre else none

/-- Leftmost regex search: try each occurrence of the literal `data/` in turn. -/
def splitFromPathAux : List Char → Option (List Char)
  | [] => none
  | c :: rest =>
    if ['d', 'a', 't', 'a', '/'].isPrefixOf (c :: rest) then
      match greedySplitAux [] ((c :: rest).drop 5) with
      | some r => some r
      | none => splitFromPathAux rest
    else splitFromPathAux rest

/-- Modelled from the spec: `string_to_dict(p, split_pattern)["split"]`
reverses the sharded template against a matched path
(`py_utils.string_to_dict` is not under `src/`): the template becomes the
regex `data/(.+)-[0-9]{5}-of-[0-9]{5}.*`, searched leftmost with a greedy
capture. -/
def stringToDictSplit (p : String) : Option String :=
  (splitFromPathAux p.data).map String.mk

/-- The inner per-split probe of the default-pattern strategies: the first
pattern with a non-empty result wins; a resolver error (every resolver error
in this model is a FileNotFoundError) is swallowed by the `try` around the
inner loop and aborts the remaining patterns of that split only. -/
def anyNonEmptyPatterns (resolver : String → Except String (List String)) :
    List String → Bool
  | [] => false
  | p :: ps =>
    match resolver p with
    | .error _ => false
    | .ok l => if l.length > 0 then true else anyNonEmptyPatterns resolver ps

/-- `{split: patterns_dict[split] for split in non_empty_splits}`. -/
def filterNonEmptySplits (resolver : String → Except String (List String))
    (pd : List (String × List String)) : List (String × List String) :=
  pd.filter (fun sp => anyNonEmptyPatterns resolver sp.2)

/-- The loop over `ALL_DEFAULT_PATTERNS`: the first strategy group with a
non-empty mapping wins. -/
def tryDefaultPatterns (resolver : String → Except String (List String)) :
    List (List (String × List String)) → Option (List (String × List String))
  | [] => none
  | pd :: rest =>
    let nes := filterNonEmptySplits resolver pd
    if nes.isEmpty then tryDefaultPatterns resolver rest else some nes

/-- `_get_data_files_patterns`: first the sharded-split template, then the
default strategy groups in order.  Notes kept from the source: a matched path
that failed template reversal would raise AttributeError there; every path
matched by the sharded glob contains the literal template text, so reversal
always succeeds for the resolvers of this file and unparseable paths are
simply dropped here (`filterMap`).  The final raise interpolates a leaked
loop variable; its text is irrelevant because both callers replace it. -/
def _get_data_files_patterns (resolver : String → Except String (List String)) :
    Except String (List (String × List String)) :=
  match resolver shardedWildcardPattern with
  | .error e => .error e
  | .ok dataFiles =>
    if dataFiles.length > 0 then
      .ok (((dataFiles.filterMap stringToDictSplit).dedup).map
        (fun split => (split, [shardedPatternFor split])))
    else
      match tryDefaultPatterns resolver ALL_DEFAULT_PATTERNS with
      | some m => .ok m
      | none => .error ("Couldn't resolve pattern " ++ shardedWildcardPattern ++ " with resolver")

/-- `partial(_resolve_single_pattern_locally, base_path)`: the resolver passed
to split inference never filters extensions. -/
def localResolver (fs : List String) (base : String) :
    String → Except String (List String) :=
  fun pattern => _resolve_single_pattern_locally fs base pattern none

def get_patterns_locally (fs : List String) (base : String) :
    Except String (List (String × List String)) :=
  match _get_data_files_patterns (localResolver fs base) with
  | .ok r => .ok r
  | .error _ => .error ("The directory at " ++ base ++ " doesn't contain any data file")

def repoResolver (info : DatasetInfo) : String → Except String (List String) :=
  fun pattern => _resolve_single_pattern_in_dataset_repository info pattern none

def get_patterns_in_dataset_repository (info : DatasetInfo) :
    Except String (List (String × List String)) :=
  match _get_data_files_patterns (repoResolver info) with
  | .ok r => .ok r
  | .error _ =>
    .error ("The dataset repository at '" ++ info.id ++ "' doesn't contain any data file.")

/-! ## Order theory of the code-point comparison -/

theorem charListLt_irrefl : ∀ cs : List Char, charListLt cs cs = false
  | [] => rfl
  | c :: cs => by
    simp [charListLt, charListLt_irrefl cs]

theorem charListLt_asymm :
    ∀ as bs : List Char, charListLt as bs = true → charListLt bs as = false
  | [], [] => by simp [charListLt]
  | [], _ :: _ => by simp [charListLt]
  | _ :: _, [] => by simp [charListLt]
  | a :: as, b :: bs => by
    simp only [charListLt, Bool.or_eq_true, Bool.and_eq_true, decide_eq_true_eq, beq_iff_eq,
      Bool.or_eq_false_iff, Bool.and_eq_false_iff, decide_eq_false_iff_not, beq_eq_false_iff_ne]
    rintro (hlt | ⟨rfl, hrec⟩)
    · exact ⟨by omega, Or.inl (by rintro rfl; omega)⟩
    · exact ⟨by omega, Or.inr (charListLt_asymm as bs hrec)⟩

theorem charListLt_trans :
    ∀ as bs cs : List Char, charListLt as bs = true → charListLt bs cs = true →
      charListLt as cs = true
  | _, [], [] => by simp [charListLt]
  | _, _ :: _, [] => by simp [charListLt]
  | [], [], _ :: _ => by simp [charListLt]
  | [], _ :: _, _ :: _ => by simp [charListLt]
  | _ :: _, [], _ :: _ => by simp [charListLt]
  | a :: as, b :: bs, c :: cs => by
    simp only [charListLt, Bool.or_eq_true, Bool.and_eq_true, decide_eq_true_eq, beq_iff_eq]
    rintro (hab | ⟨rfl, hab⟩) (hbc | ⟨rfl, hbc⟩)
    · exact Or.inl (Nat.lt_trans hab hbc)
    · exact Or.inl hab
    · exact Or.inl hbc
    · exact Or.inr ⟨rfl, charListLt_trans as bs cs hab hbc⟩

theorem charListLt_connex :
    ∀ as bs : List Char, charListLt as bs = false → charListLt bs as = false → as = bs
  | [], [] => by simp
  | [], _ :: _ => by simp [charListLt]
  | _ :: _, [] => by simp [charListLt]
  | a :: as, b :: bs => by
    simp only [charListLt, Bool.or_eq_false_iff, Bool.and_eq_false_iff, decide_eq_false_iff_not]
    rintro ⟨hab, hab2⟩ ⟨hba, hba2⟩
    have hv : a.val.toNat = b.val.toNat := by omega
    have hc : a = b := Char.ext (UInt32.toNat.inj hv)
    subst hc
    rcases hab2 with h | h
    · simp at h
    · rcases hba2 with h2 | h2
      · simp at h2
      · exact congrArg (a :: ·) (charListLt_connex as bs h h2)

theorem strLtB_asymm {a b : String} (h : strLtB a b = true) : strLtB b a = false :=
  charListLt_asymm a.data b.data h

theorem strLtB_connex {a b : String} (h1 : strLtB a b = false) (h2 : strLtB b a = false) :
    a = b := by
  have h := charListLt_connex a.data b.data h1 h2
  cases a
  cases b
  exact congrArg String.mk h

/-- The strict key order on dict items. -/
def keyLt (a b : String × DataFilesList) : Prop :=
  strLtB a.1 b.1 = true

instance : IsTotal (String × DataFilesList) keyLe :=
  ⟨fun a b => by
    unfold keyLe strLeB
    cases h : strLtB b.1 a.1
    · simp
    · simp [strLtB_asymm h]⟩

instance : IsTrans (String × DataFilesList) keyLe :=
  ⟨fun a b c hab hbc => by
    unfold keyLe strLeB at hab hbc ⊢
    rw [Bool.not_eq_true'] at hab hbc ⊢
    cases hca : strLtB c.1 a.1
    · rfl
    · exfalso
      cases hab2 : strLtB a.1 b.1
      · have he : a.1 = b.1 := strLtB_connex hab2 hab
        rw [he] at hca
        rw [hca] at hbc
        simp at hbc
      · have h1 : strLtB c.1 b.1 = true := charListLt_trans _ _ _ hca hab2
        rw [h1] at hbc
        simp at hbc⟩

instance : IsAntisymm (String × DataFilesList) keyLt :=
  ⟨fun a b hab hba => absurd hba (by simp [keyLt, strLtB_asymm hab])⟩

/-! ## Structure of the multi-pattern resolution loop -/

/-- The files a single pattern contributes on the success path. -/
def contribOk (contrib : String → Except String (List α)) (p : String) : List α :=
  match contrib p with
  | .ok l => l
  | .error _ => []

theorem resolvePatternsAux_ok_flatten (contrib : String → Except String (List α)) :
    ∀ ps l, resolvePatternsAux contrib ps = .ok l →
      l = (ps.map (contribOk contrib)).flatten
  | [], l => by
    intro h
    simp only [resolvePatternsAux, Except.ok.injEq] at h
    simp [← h]
  | p :: ps, l => by
    intro h
    unfold resolvePatternsAux at h
    cases hc : contrib p with
    | error e => rw [hc] at h; exact absurd h (by simp)
    | ok head =>
      rw [hc] at h
      cases hr : resolvePatternsAux contrib ps with
      | error e => rw [hr] at h; exact absurd h (by simp)
      | ok rest =>
        rw [hr] at h
        simp only [Except.ok.injEq] at h
        have ih := resolvePatternsAux_ok_flatten contrib ps rest hr
        simp [← h, List.map_cons, List.flatten_cons, contribOk, hc, ih]

theorem resolve_patterns_local_ok_aux {fs : List String} {base : String}
    {allowed : Option (List String)} {ps : List String} {l : List ResolvedLoc}
    (h : resolve_patterns_locally_or_by_urls fs base ps allowed = .ok l) :
    resolvePatternsAux (localPatternContribution fs base allowed) ps = .ok l := by
  unfold resolve_patterns_locally_or_by_urls at h
  split at h
  · simp at h
  · rename_i l2 heq
    split at h
    · simp at h
    · simp only [Except.ok.injEq] at h
      rw [heq, h]

theorem resolve_patterns_repo_ok_aux {info : DatasetInfo}
    {allowed : Option (List String)} {ps : List String} {l : List String}
    (h : resolve_patterns_in_dataset_repository info ps allowed = .ok l) :
    resolvePatternsAux (repoPatternContribution info allowed) ps = .ok l := by
  unfold resolve_patterns_in_dataset_repository at h
  split at h
  · simp at h
  · rename_i l2 heq
    split at h
    · simp at h
    · simp only [Except.ok.injEq] at h
      rw [heq, h]

/-- A successful local single-pattern resolution returns exactly the sorted
filtered matches. -/
theorem resolve_single_local_ok {fs : List String} {base pattern : String}
    {allowed : Option (List String)} {l : List String}
    (h : _resolve_single_pattern_locally fs base pattern allowed = .ok l) :
    l = sortPaths (localOut fs base pattern allowed) := by
  simp only [_resolve_single_pattern_locally] at h
  split at h
  · simp at h
  · simp only [Except.ok.injEq] at h
    rw [← h]

/-- A successful remote single-pattern resolution returns exactly the sorted
filtered matches. -/
theorem resolve_single_repo_ok {info : DatasetInfo} {pattern : String}
    {allowed : Option (List String)} {l : List String}
    (h : _resolve_single_pattern_in_dataset_repository info pattern allowed = .ok l) :
    l = sortPaths (repoOut info pattern allowed) := by
  simp only [_resolve_single_pattern_in_dataset_repository] at h
  split at h
  · simp at h
  · simp only [Except.ok.injEq] at h
    rw [← h]

/-! ## Claims -/

/-- C1 (counterexample to the claim as stated): `DataFilesList.from_hf_repo`
builds one fingerprint per PATTERN, not per resolved file, so a single
pattern matching two repository files yields two locations but only one
fingerprint; 2 entries against 1 entry, hence the lengths differ. -/
theorem C1_counterexample :
    (DataFilesList.from_hf_repo ["*.csv"] ⟨"u/r", "sha0", ["a.csv", "b.csv"]⟩ none).map
        (fun dfl => (dfl.files.length, dfl.origin_metadata.length)) = .ok (2, 1)
    ∧ (2 : Nat) ≠ 1 := by
  decide

/-- C1 (amended): for `from_local_or_remote` the list of resolved locations
and the `origin_metadata` sequence always have equal length (paired 1:1 by
index); for `from_hf_repo` every fingerprint is the single
(repository id, revision sha) pair, but there is one fingerprint per input
pattern, so the two lengths agree only when the number of patterns equals the
number of resolved files. -/
theorem C1_fingerprint_lengths (fs patterns : List String) (base : String)
    (allowed : Option (List String)) (mtime etag : String → String)
    (patterns2 : List String) (info : DatasetInfo) (allowed2 : Option (List String))
    (dfl dfl2 : DataFilesList)
    (h1 : DataFilesList.from_local_or_remote fs patterns base allowed mtime etag = .ok dfl)
    (h2 : DataFilesList.from_hf_repo patterns2 info allowed2 = .ok dfl2) :
    dfl.files.length = dfl.origin_metadata.length
    ∧ dfl2.origin_metadata.length = patterns2.length
    ∧ ∀ m ∈ dfl2.origin_metadata, m = [info.id, info.sha] := by
  refine ⟨?_, ?_, ?_⟩
  · unfold DataFilesList.from_local_or_remote at h1
    split at h1
    · simp at h1
    · simp only [Except.ok.injEq] at h1
      rw [← h1]
      simp [_get_origin_metadata_locally_or_by_urls]
  · unfold DataFilesList.from_hf_repo at h2
    split at h2
    · simp at h2
    · simp only [Except.ok.injEq] at h2
      rw [← h2]
      simp
  · unfold DataFilesList.from_hf_repo at h2
    split at h2
    · simp at h2
    · simp only [Except.ok.injEq] at h2
      rw [← h2]
      intro m hm
      simp only [List.mem_map] at hm
      obtain ⟨p, _, hp⟩ := hm
      exact hp.symm

/-- C1 witness: the amended statement applied at a one-file local resolution
and a one-pattern, one-file repository resolution. -/
theorem C1_fingerprint_lengths_witness :
    (⟨[.path "/b/a.csv"], [["0"]]⟩ : DataFilesList).files.length =
      (⟨[.path "/b/a.csv"], [["0"]]⟩ : DataFilesList).origin_metadata.length
    ∧ (⟨[.url (hf_hub_url "u/r" "a.csv" "sha0")], [["u/r", "sha0"]]⟩ :
        DataFilesList).origin_metadata.length = (["*.csv"] : List String).length
    ∧ ∀ m ∈ (⟨[.url (hf_hub_url "u/r" "a.csv" "sha0")], [["u/r", "sha0"]]⟩ :
        DataFilesList).origin_metadata, m = ["u/r", "sha0"] :=
  C1_fingerprint_lengths ["a.csv"] ["*"] "/b" none (fun _ => "0") (fun _ => "e")
    ["*.csv"] ⟨"u/r", "sha0", ["a.csv"]⟩ none
    ⟨[.path "/b/a.csv"], [["0"]]⟩
    ⟨[.url (hf_hub_url "u/r" "a.csv" "sha0")], [["u/r", "sha0"]]⟩
    (by decide) (by decide)

/-- C2 (counterexample to the claim as stated): the extension filter keeps a
file when ANY of its dot-suffixes is allowed, not only the final one:
`a.csv.gz` is kept under `allowed_extensions=["csv"]` although its final
suffix `gz` is not in the allow-list. -/
theorem C2_counterexample :
    _resolve_single_pattern_locally ["a.csv.gz"] "/base" "*" (some ["csv"]) =
      .ok ["/base/a.csv.gz"]
    ∧ (pySuffixes "a.csv.gz").getLastD "" = ".gz"
    ∧ ("gz" ∈ (["csv"] : List String) → False) := by
  decide

/-- C2 (amended): with a non-None allow-list, local and remote single-pattern
resolution keep exactly those matched files for which AT LEAST ONE
dot-suffix, with the leading dot stripped, is in the allow-list (so the
{a.csv, b.json, c.txt} example still returns exactly {a.csv, b.json});
excluded files cause no error on the success path. -/
theorem C2_extension_filter (fs : List String) (base pattern : String)
    (exts : List String) (info : DatasetInfo) (l l0 r r0 : List String)
    (h1 : _resolve_single_pattern_locally fs base pattern (some exts) = .ok l)
    (h2 : _resolve_single_pattern_locally fs base pattern none = .ok l0)
    (h3 : _resolve_single_pattern_in_dataset_repository info pattern (some exts) = .ok r)
    (h4 : _resolve_single_pattern_in_dataset_repository info pattern none = .ok r0) :
    (∀ f, f ∈ l ↔ f ∈ l0 ∧ anySuffixAllowed exts (fileName f) = true)
    ∧ (∀ f, f ∈ r ↔ f ∈ r0 ∧ anySuffixAllowed exts (fileName f) = true) := by
  have e1 := resolve_single_local_ok h1
  have e2 := resolve_single_local_ok h2
  have e3 := resolve_single_repo_ok h3
  have e4 := resolve_single_repo_ok h4
  subst e1 e2 e3 e4
  constructor <;> intro f <;>
    simp [sortPaths, localOut, repoOut, List.mem_filter]

/-- C2 witness: the spec's example, locally and in a repository. -/
theorem C2_extension_filter_witness :
    (("/base/c.txt" ∈ (["/base/a.csv", "/base/b.json"] : List String) ↔
        "/base/c.txt" ∈ (["/base/a.csv", "/base/b.json", "/base/c.txt"] : List String)
          ∧ anySuffixAllowed ["csv", "json"] (fileName "/base/c.txt") = true)
      ∧ ("/base/a.csv" ∈ (["/base/a.csv", "/base/b.json"] : List String) ↔
        "/base/a.csv" ∈ (["/base/a.csv", "/base/b.json", "/base/c.txt"] : List String)
          ∧ anySuffixAllowed ["csv", "json"] (fileName "/base/a.csv") = true))
    ∧ ("c.txt" ∈ (["a.csv", "b.json"] : List String) ↔
        "c.txt" ∈ (["a.csv", "b.json", "c.txt"] : List String)
          ∧ anySuffixAllowed ["csv", "json"] (fileName "c.txt") = true) := by
  have h := C2_extension_filter ["a.csv", "b.json", "c.txt"] "/base" "*" ["csv", "json"]
    ⟨"u/r", "sha0", ["a.csv", "b.json", "c.txt"]⟩
    ["/base/a.csv", "/base/b.json"] ["/base/a.csv", "/base/b.json", "/base/c.txt"]
    ["a.csv", "b.json"] ["a.csv", "b.json", "c.txt"]
    (by decide) (by decide) (by decide) (by decide)
  exact ⟨⟨h.1 "/base/c.txt", h.1 "/base/a.csv"⟩, h.2 "c.txt"⟩

/-- C3 (counterexample to the claim as stated): with two exact patterns given
in reverse lexicographic order, the multi-pattern output is the concatenation
of the per-pattern results, which is neither lexicographically sorted as a
whole nor invariant under permuting the pattern list. -/
theorem C3_counterexample :
    resolve_patterns_locally_or_by_urls ["a.csv", "b.csv"] "/base" ["b.csv", "a.csv"] none =
      .ok [.path "/base/b.csv", .path "/base/a.csv"]
    ∧ resolve_patterns_locally_or_by_urls ["a.csv", "b.csv"] "/base" ["a.csv", "b.csv"] none =
      .ok [.path "/base/a.csv", .path "/base/b.csv"]
    ∧ (["b.csv", "a.csv"] : List String).Perm ["a.csv", "b.csv"]
    ∧ ¬ pathLe "/base/b.csv" "/base/a.csv" := by
  decide

/-- C3 (amended): the output of both multi-pattern resolvers is the
concatenation, in input-pattern order, of the per-pattern results (each of
which is sorted individually); permuting the pattern list therefore yields a
permutation of the output — the same multiset of resolved files, hence the
same list after sorting — but not necessarily the same list. -/
theorem C3_pattern_order (fs : List String) (base : String)
    (allowed : Option (List String)) (info : DatasetInfo) (ps₁ ps₂ : List String)
    (l₁ l₂ : List ResolvedLoc) (r₁ r₂ : List String)
    (hperm : ps₁.Perm ps₂)
    (h1 : resolve_patterns_locally_or_by_urls fs base ps₁ allowed = .ok l₁)
    (h2 : resolve_patterns_locally_or_by_urls fs base ps₂ allowed = .ok l₂)
    (h3 : resolve_patterns_in_dataset_repository info ps₁ allowed = .ok r₁)
    (h4 : resolve_patterns_in_dataset_repository info ps₂ allowed = .ok r₂) :
    l₁.Perm l₂
    ∧ l₁ = (ps₁.map (contribOk (localPatternContribution fs base allowed))).flatten
    ∧ r₁.Perm r₂
    ∧ r₁ = (ps₁.map (contribOk (repoPatternContribution info allowed))).flatten := by
  have a1 := resolvePatternsAux_ok_flatten _ _ _ (resolve_patterns_local_ok_aux h1)
  have a2 := resolvePatternsAux_ok_flatten _ _ _ (resolve_patterns_local_ok_aux h2)
  have a3 := resolvePatternsAux_ok_flatten _ _ _ (resolve_patterns_repo_ok_aux h3)
  have a4 := resolvePatternsAux_ok_flatten _ _ _ (resolve_patterns_repo_ok_aux h4)
  refine ⟨?_, a1, ?_, a3⟩
  · rw [a1, a2]
    exact (hperm.map _).flatten
  · rw [a3, a4]
    exact (hperm.map _).flatten

/-- C3 witness: the amended statement at the two-pattern example. -/
theorem C3_pattern_order_witness :
    ([ResolvedLoc.path "/base/b.csv", ResolvedLoc.path "/base/a.csv"] : List ResolvedLoc).Perm
      [ResolvedLoc.path "/base/a.csv", ResolvedLoc.path "/base/b.csv"]
    ∧ ([ResolvedLoc.path "/base/b.csv", ResolvedLoc.path "/base/a.csv"] : List ResolvedLoc) =
      ((["b.csv", "a.csv"] : List String).map
        (contribOk (localPatternContribution ["a.csv", "b.csv"] "/base" none))).flatten
    ∧ ([hf_hub_url "u/r" "b.csv" "sha0", hf_hub_url "u/r" "a.csv" "sha0"] : List String).Perm
      [hf_hub_url "u/r" "a.csv" "sha0", hf_hub_url "u/r" "b.csv" "sha0"]
    ∧ ([hf_hub_url "u/r" "b.csv" "sha0", hf_hub_url "u/r" "a.csv" "sha0"] : List String) =
      ((["b.csv", "a.csv"] : List String).map
        (contribOk (repoPatternContribution ⟨"u/r", "sha0", ["a.csv", "b.csv"]⟩ none))).flatten :=
  C3_pattern_order ["a.csv", "b.csv"] "/base" none ⟨"u/r", "sha0", ["a.csv", "b.csv"]⟩
    ["b.csv", "a.csv"] ["a.csv", "b.csv"]
    [.path "/base/b.csv", .path "/base/a.csv"] [.path "/base/a.csv", .path "/base/b.csv"]
    [hf_hub_url "u/r" "b.csv" "sha0", hf_hub_url "u/r" "a.csv" "sha0"]
    [hf_hub_url "u/r" "a.csv" "sha0", hf_hub_url "u/r" "b.csv" "sha0"]
    (by decide) (by decide) (by decide) (by decide) (by decide)

/-- C4 (confirmed): in both single-pattern resolvers, an empty filtered
result for a pattern WITHOUT wildcard characters raises the not-found error,
while an empty filtered result for a pattern WITH a wildcard character is
returned as an empty list without error. -/
theorem C4_empty_match_policy (fs : List String) (base pe pw : String)
    (allowed : Option (List String)) (info : DatasetInfo)
    (he : contains_wildcards pe = false) (hw : contains_wildcards pw = true)
    (h1 : localOut fs base pe allowed = []) (h2 : localOut fs base pw allowed = [])
    (h3 : repoOut info pe allowed = []) (h4 : repoOut info pw allowed = []) :
    _resolve_single_pattern_locally fs base pe allowed =
      .error (localNotFoundMsg base pe allowed)
    ∧ _resolve_single_pattern_locally fs base pw allowed = .ok []
    ∧ _resolve_single_pattern_in_dataset_repository info pe allowed =
      .error (repoNotFoundMsg info pe allowed)
    ∧ _resolve_single_pattern_in_dataset_repository info pw allowed = .ok [] := by
  refine ⟨?_, ?_, ?_, ?_⟩
  · simp [_resolve_single_pattern_locally, h1, he]
  · simp [_resolve_single_pattern_locally, h2, hw, sortPaths, List.insertionSort]
  · simp [_resolve_single_pattern_in_dataset_repository, h3, he]
  · simp [_resolve_single_pattern_in_dataset_repository, h4, hw, sortPaths, List.insertionSort]

/-- C4 witness: the spec's example, an empty directory and an empty
repository listing with `missing.csv` (no wildcards, raises) and `*.csv`
(wildcard, empty non-error result). -/
theorem C4_empty_match_policy_witness :
    _resolve_single_pattern_locally [] "/empty" "missing.csv" none =
      .error (localNotFoundMsg "/empty" "missing.csv" none)
    ∧ _resolve_single_pattern_locally [] "/empty" "*.csv" none = .ok []
    ∧ _resolve_single_pattern_in_dataset_repository ⟨"u/r", "sha0", []⟩ "missing.csv" none =
      .error (repoNotFoundMsg ⟨"u/r", "sha0", []⟩ "missing.csv" none)
    ∧ _resolve_single_pattern_in_dataset_repository ⟨"u/r", "sha0", []⟩ "*.csv" none = .ok [] :=
  C4_empty_match_policy [] "/empty" "missing.csv" "*.csv" none ⟨"u/r", "sha0", []⟩
    (by decide) (by decide) (by decide) (by decide) (by decide) (by decide)

/-- C5 (confirmed): split inference obeys the full strict priority cascade,
for every resolver.  When the sharded strategy matches nothing: if the
filename-convention group yields at least one non-empty split, its mapping is
returned (never falling through to the directory-convention or catch-all
group); if the filename group is empty but the directory-convention group is
non-empty, the directory-convention mapping is returned (never falling
through to the catch-all); and if both convention groups are empty but the
catch-all matches, the catch-all mapping is returned.  Each returned mapping
is the strategy group restricted to its non-empty splits. -/
theorem C5_strategy_priority (r₁ r₂ r₃ : String → Except String (List String))
    (h₁s : r₁ shardedWildcardPattern = .ok [])
    (h₁f : filterNonEmptySplits r₁ DEFAULT_PATTERNS_SPLIT_IN_FILENAME ≠ [])
    (h₂s : r₂ shardedWildcardPattern = .ok [])
    (h₂f : filterNonEmptySplits r₂ DEFAULT_PATTERNS_SPLIT_IN_FILENAME = [])
    (h₂d : filterNonEmptySplits r₂ DEFAULT_PATTERNS_SPLIT_IN_DIR_NAME ≠ [])
    (h₃s : r₃ shardedWildcardPattern = .ok [])
    (h₃f : filterNonEmptySplits r₃ DEFAULT_PATTERNS_SPLIT_IN_FILENAME = [])
    (h₃d : filterNonEmptySplits r₃ DEFAULT_PATTERNS_SPLIT_IN_DIR_NAME = [])
    (h₃a : filterNonEmptySplits r₃ DEFAULT_PATTERNS_ALL ≠ []) :
    _get_data_files_patterns r₁ =
      .ok (filterNonEmptySplits r₁ DEFAULT_PATTERNS_SPLIT_IN_FILENAME)
    ∧ _get_data_files_patterns r₂ =
      .ok (filterNonEmptySplits r₂ DEFAULT_PATTERNS_SPLIT_IN_DIR_NAME)
    ∧ _get_data_files_patterns r₃ =
      .ok (filterNonEmptySplits r₃ DEFAULT_PATTERNS_ALL) := by
  have h₁f' : (filterNonEmptySplits r₁ DEFAULT_PATTERNS_SPLIT_IN_FILENAME).isEmpty
      = false := by simpa using h₁f
  have h₂d' : (filterNonEmptySplits r₂ DEFAULT_PATTERNS_SPLIT_IN_DIR_NAME).isEmpty
      = false := by simpa using h₂d
  have h₃a' : (filterNonEmptySplits r₃ DEFAULT_PATTERNS_ALL).isEmpty
      = false := by simpa using h₃a
  refine ⟨?_, ?_, ?_⟩
  · unfold _get_data_files_patterns
    rw [h₁s]
    simp [tryDefaultPatterns, ALL_DEFAULT_PATTERNS, h₁f']
  · unfold _get_data_files_patterns
    rw [h₂s]
    simp [tryDefaultPatterns, ALL_DEFAULT_PATTERNS, h₂f, h₂d']
  · unfold _get_data_files_patterns
    rw [h₃s]
    simp [tryDefaultPatterns, ALL_DEFAULT_PATTERNS, h₃f, h₃d, h₃a']

/-- C5 witness: `train.csv` and `test.csv` resolve via the filename
convention with both the train and test splits present; `training/a.csv`
(no file NAME contains a convention substring, but a directory name does)
falls through to the directory convention only; `foo.csv` (matching no
convention at all) falls through to the catch-all. -/
theorem C5_strategy_priority_witness :
    (_get_data_files_patterns (localResolver ["train.csv", "test.csv"] "/base") =
      .ok (filterNonEmptySplits (localResolver ["train.csv", "test.csv"] "/base")
        DEFAULT_PATTERNS_SPLIT_IN_FILENAME)
    ∧ _get_data_files_patterns (localResolver ["training/a.csv"] "/base") =
      .ok (filterNonEmptySplits (localResolver ["training/a.csv"] "/base")
        DEFAULT_PATTERNS_SPLIT_IN_DIR_NAME)
    ∧ _get_data_files_patterns (localResolver ["foo.csv"] "/base") =
      .ok (filterNonEmptySplits (localResolver ["foo.csv"] "/base")
        DEFAULT_PATTERNS_ALL))
    ∧ filterNonEmptySplits (localResolver ["train.csv", "test.csv"] "/base")
        DEFAULT_PATTERNS_SPLIT_IN_FILENAME =
      [("train", ["*train*"]), ("test", ["*test*", "*eval*"])]
    ∧ filterNonEmptySplits (localResolver ["training/a.csv"] "/base")
        DEFAULT_PATTERNS_SPLIT_IN_DIR_NAME =
      [("train", ["*train*/*", "*train*/**/*"])]
    ∧ filterNonEmptySplits (localResolver ["foo.csv"] "/base") DEFAULT_PATTERNS_ALL =
      [("train", ["*"])] :=
  ⟨C5_strategy_priority
      (localResolver ["train.csv", "test.csv"] "/base")
      (localResolver ["training/a.csv"] "/base")
      (localResolver ["foo.csv"] "/base")
      (by decide) (by decide) (by decide) (by decide) (by decide)
      (by decide) (by decide) (by decide) (by decide),
   by decide, by decide, by decide⟩

/-- C6 (confirmed): when the wildcarded sharded template matches a non-empty
file list, split inference parses the split name back out of each matched
path and returns one entry per distinct recovered split name, whose pattern
list is the sharded template instantiated at that split. -/
theorem C6_sharded_discovery (resolver : String → Except String (List String))
    (files : List String)
    (h1 : resolver shardedWildcardPattern = .ok files) (h2 : files ≠ []) :
    _get_data_files_patterns resolver =
      .ok (((files.filterMap stringToDictSplit).dedup).map
        (fun split => (split, [shardedPatternFor split])))
    ∧ ((((files.filterMap stringToDictSplit).dedup).map
        (fun split => (split, [shardedPatternFor split]))).map Prod.fst).Nodup
    ∧ ∀ s ps,
        (s, ps) ∈ (((files.filterMap stringToDictSplit).dedup).map
          (fun split => (split, [shardedPatternFor split]))) ↔
        (s ∈ files.filterMap stringToDictSplit ∧ ps = [shardedPatternFor s]) := by
  have hlen : files.length > 0 := List.length_pos.mpr h2
  refine ⟨?_, ?_, ?_⟩
  · unfold _get_data_files_patterns
    rw [h1]
    simp [hlen]
  · rw [List.map_map]
    have hcomp : (Prod.fst ∘ fun split => (split, [shardedPatternFor split]))
        = (id : String → String) := rfl
    rw [hcomp, List.map_id]
    exact List.nodup_dedup (files.filterMap stringToDictSplit)
  · intro s ps
    simp only [List.mem_map, List.mem_dedup, Prod.mk.injEq]
    constructor
    · rintro ⟨a, ha, rfl, rfl⟩
      exact ⟨ha, rfl⟩
    · rintro ⟨hs, rfl⟩
      exact ⟨s, hs, rfl, rfl⟩

/-- C6 witness: the spec's sharded example discovers exactly the splits test
and train. -/
theorem C6_sharded_discovery_witness :
    ((["/base/data/test-00000-of-00001.parquet", "/base/data/train-00000-of-00002.parquet",
       "/base/data/train-00001-of-00002.parquet"].filterMap stringToDictSplit).dedup
      = ["test", "train"])
    ∧ _get_data_files_patterns (localResolver
        ["data/train-00000-of-00002.parquet", "data/train-00001-of-00002.parquet",
         "data/test-00000-of-00001.parquet"] "/base") =
      .ok (((["/base/data/test-00000-of-00001.parquet",
              "/base/data/train-00000-of-00002.parquet",
              "/base/data/train-00001-of-00002.parquet"].filterMap
                stringToDictSplit).dedup).map
        (fun split => (split, [shardedPatternFor split]))) :=
  ⟨by decide,
   (C6_sharded_discovery (localResolver
      ["data/train-00000-of-00002.parquet", "data/train-00001-of-00002.parquet",
       "data/test-00000-of-00001.parquet"] "/base")
      ["/base/data/test-00000-of-00001.parquet", "/base/data/train-00000-of-00002.parquet",
       "/base/data/train-00001-of-00002.parquet"]
      (by decide) (by decide)).1⟩

/-- C7 (confirmed): the canonical reduction of a `DataFilesDict`
(`dict(sorted(self.items()))`) is invariant under the insertion order of the
keys: two association lists with the same `(split name, DataFilesList)`
content and (necessarily unique) dict keys reduce identically, so the content
hash computed from the reduction cannot depend on key insertion order. -/
theorem C7_reduce_key_order (d₁ d₂ : List (String × DataFilesList))
    (hperm : d₁.Perm d₂) (hnodup : (d₁.map Prod.fst).Nodup) :
    DataFilesDict.reduceArg d₁ = DataFilesDict.reduceArg d₂ := by
  have hstrict : ∀ l : List (String × DataFilesList),
      l.Sorted keyLe → (l.map Prod.fst).Nodup → l.Sorted keyLt := by
    intro l hs hn
    have hpair : l.Pairwise (fun a b => a.1 ≠ b.1) := List.pairwise_map.mp hn
    refine (hs.and hpair).imp ?_
    rintro a b ⟨hle, hne⟩
    unfold keyLe strLeB at hle
    rw [Bool.not_eq_true'] at hle
    cases hab : strLtB a.1 b.1
    · exact absurd (strLtB_connex hab hle) hne
    · exact hab
  have hp : (DataFilesDict.reduceArg d₁).Perm (DataFilesDict.reduceArg d₂) :=
    (List.perm_insertionSort keyLe d₁).trans
      (hperm.trans (List.perm_insertionSort keyLe d₂).symm)
  have hn₁ : ((DataFilesDict.reduceArg d₁).map Prod.fst).Nodup :=
    (((List.perm_insertionSort keyLe d₁).map Prod.fst).nodup_iff).mpr hnodup
  have hn₂ : ((DataFilesDict.reduceArg d₂).map Prod.fst).Nodup :=
    (((List.perm_insertionSort keyLe d₂).map Prod.fst).nodup_iff).mpr
      ((hperm.map Prod.fst).nodup_iff.mp hnodup)
  exact List.eq_of_perm_of_sorted hp
    (hstrict _ (List.sorted_insertionSort keyLe d₁) hn₁)
    (hstrict _ (List.sorted_insertionSort keyLe d₂) hn₂)

/-- C7 witness: two concrete dicts with the same content and opposite key
insertion order reduce identically. -/
theorem C7_reduce_key_order_witness :
    DataFilesDict.reduceArg
        [("b", ⟨[.path "/b/x.csv"], [["1"]]⟩), ("a", ⟨[], []⟩)] =
      DataFilesDict.reduceArg
        [("a", ⟨[], []⟩), ("b", ⟨[.path "/b/x.csv"], [["1"]]⟩)] :=
  C7_reduce_key_order
    [("b", ⟨[.path "/b/x.csv"], [["1"]]⟩), ("a", ⟨[], []⟩)]
    [("a", ⟨[], []⟩), ("b", ⟨[.path "/b/x.csv"], [["1"]]⟩)]
    (by decide) (by decide)

/-- C8 (confirmed): `sanitize_patterns` is total over its input shapes and
always returns a mapping from split name to list of patterns: a bare pattern
string or a list is assigned entirely to the default split `"train"`; a
mapping keeps its (stringified) keys, wraps each non-list value into a
single-element list and keeps each list value as is. -/
theorem C8_sanitize_total :
    DEFAULT_SPLIT = "train"
    ∧ (∀ s, sanitize_patterns (.str s) = [(DEFAULT_SPLIT, [s])])
    ∧ (∀ l, sanitize_patterns (.list l) = [(DEFAULT_SPLIT, l)])
    ∧ (∀ d, (sanitize_patterns (.dict d)).map Prod.fst = d.map Prod.fst)
    ∧ (∀ d s v, (s, PatternsValue.single v) ∈ d →
        (s, [v]) ∈ sanitize_patterns (.dict d))
    ∧ (∀ d s l, (s, PatternsValue.many l) ∈ d →
        (s, l) ∈ sanitize_patterns (.dict d)) := by
  refine ⟨rfl, fun s => rfl, fun l => rfl, ?_, ?_, ?_⟩
  · intro d
    simp [sanitize_patterns]
  · intro d s v hm
    simp only [sanitize_patterns, List.mem_map]
    exact ⟨(s, PatternsValue.single v), hm, rfl⟩
  · intro d s l hm
    simp only [sanitize_patterns, List.mem_map]
    exact ⟨(s, PatternsValue.many l), hm, rfl⟩

/-- C8 witness: the shape clauses applied at concrete inputs. -/
theorem C8_sanitize_total_witness :
    sanitize_patterns (.str "p") = [(DEFAULT_SPLIT, ["p"])]
    ∧ ("a", ["x"]) ∈ sanitize_patterns (.dict [("a", .single "x"), ("b", .many ["y", "z"])])
    ∧ ("b", ["y", "z"]) ∈ sanitize_patterns
        (.dict [("a", .single "x"), ("b", .many ["y", "z"])]) :=
  ⟨C8_sanitize_total.2.1 "p",
   C8_sanitize_total.2.2.2.2.1 [("a", .single "x"), ("b", .many ["y", "z"])] "a" "x"
     (by simp),
   C8_sanitize_total.2.2.2.2.2 [("a", .single "x"), ("b", .many ["y", "z"])] "b" ["y", "z"]
     (by simp)⟩

/-- C9 (confirmed): when the sharded strategy and every default strategy
group (including the catch-all) yield nothing, `get_patterns_locally` fails
with the no-data-files error naming the base directory, and
`get_patterns_in_dataset_repository` fails with the no-data-files error
naming the repository id. -/
theorem C9_no_data_files_error (fs : List String) (base : String) (info : DatasetInfo)
    (h1 : localResolver fs base shardedWildcardPattern = .ok [])
    (h2 : tryDefaultPatterns (localResolver fs base) ALL_DEFAULT_PATTERNS = none)
    (h3 : repoResolver info shardedWildcardPattern = .ok [])
    (h4 : tryDefaultPatterns (repoResolver info) ALL_DEFAULT_PATTERNS = none) :
    get_patterns_locally fs base =
      .error ("The directory at " ++ base ++ " doesn't contain any data file")
    ∧ get_patterns_in_dataset_repository info =
      .error ("The dataset repository at '" ++ info.id ++ "' doesn't contain any data file.") := by
  have hl : _get_data_files_patterns (localResolver fs base) =
      .error ("Couldn't resolve pattern " ++ shardedWildcardPattern ++ " with resolver") := by
    unfold _get_data_files_patterns
    rw [h1]
    simp [h2]
  have hr : _get_data_files_patterns (repoResolver info) =
      .error ("Couldn't resolve pattern " ++ shardedWildcardPattern ++ " with resolver") := by
    unfold _get_data_files_patterns
    rw [h3]
    simp [h4]
  constructor
  · unfold get_patterns_locally
    rw [hl]
  · unfold get_patterns_in_dataset_repository
    rw [hr]

/-- C9 witness: an empty directory and an empty repository listing. -/
theorem C9_no_data_files_error_witness :
    get_patterns_locally [] "/empty" =
      .error ("The directory at " ++ "/empty" ++ " doesn't contain any data file")
    ∧ get_patterns_in_dataset_repository ⟨"u/r", "sha0", []⟩ =
      .error ("The dataset repository at '" ++ "u/r" ++ "' doesn't contain any data file.") :=
  C9_no_data_files_error [] "/empty" ⟨"u/r", "sha0", []⟩
    (by decide) (by decide) (by decide) (by decide)

/-- C10 (confirmed): a pattern classified as a remote URL is returned
verbatim as a single `Url`-tagged entry by
`resolve_patterns_locally_or_by_urls`, for EVERY filesystem, base path and
allow-list — no ignore-list, dotfile or extension filtering applies to it, no
non-wildcard not-found check runs, and no error is raised for it. -/
theorem C10_url_passthrough (fs : List String) (base p : String)
    (allowed : Option (List String)) (h : is_remote_url p = true) :
    resolve_patterns_locally_or_by_urls fs base [p] allowed = .ok [.url p] := by
  simp [resolve_patterns_locally_or_by_urls, resolvePatternsAux, localPatternContribution, h]

/-- C10 witness: a nonexistent remote URL resolved against an empty
filesystem with a restrictive allow-list still comes back verbatim. -/
theorem C10_url_passthrough_witness :
    is_remote_url "https://example.com/no-such-file.csv" = true
    ∧ resolve_patterns_locally_or_by_urls [] "/empty" ["https://example.com/no-such-file.csv"]
        (some ["parquet"]) = .ok [.url "https://example.com/no-such-file.csv"] :=
  ⟨by decide,
   C10_url_passthrough [] "/empty" "https://example.com/no-such-file.csv" (some ["parquet"])
     (by decide)⟩

end DataFiles
